import Mathlib

/-!
Verification of the response-normalization and error-classification core of a
Paystack API client library.

The embedding models, from the source:
  * `paystack/core.py` — `BaseClient.__init__`, `BaseClient.request`,
    `BaseClient._handle_success_response`, `BaseClient._build_url`,
    `BaseClient._validate_required_params`;
  * `paystack_client/exceptions.py` — the exception taxonomy and
    `create_error_from_response`.

JSON values decoded by `response.json()` are modelled by `JVal` (objects are
Python dicts, i.e. association lists with unique keys; lookup returns the
value for the key).  Raising an exception is modelled by `Except.error`;
the transport layer (the `requests` session) is modelled by a
`TransportResult` describing what the single HTTP round trip produced.
-/

set_option maxHeartbeats 1000000

namespace Paystack

/-- A JSON value as decoded by Python's `json` module: `null`/`None`,
booleans, integers, strings, lists and dicts. -/
inductive JVal where
  | null : JVal
  | bool (b : Bool) : JVal
  | num (n : Int) : JVal
  | str (s : String) : JVal
  | arr (xs : List JVal) : JVal
  | obj (fields : List (String × JVal)) : JVal

/-- Dict membership/lookup: `d.get(k)` on a decoded JSON object. -/
def JVal.lookup : JVal → String → Option JVal
  | .obj fs, k => fs.lookup k
  | _, _ => none

/-- `isinstance(v, dict)` on a decoded JSON value. -/
def JVal.isDict : JVal → Bool
  | .obj _ => true
  | _ => false

/-- `str(type(v))` on a decoded JSON value (used in the
"Expected JSON object" message of `_handle_success_response`). -/
def pyTypeName : JVal → String
  | .null => "<class \x27NoneType\x27>"
  | .bool _ => "<class \x27bool\x27>"
  | .num _ => "<class \x27int\x27>"
  | .str _ => "<class \x27str\x27>"
  | .arr _ => "<class \x27list\x27>"
  | .obj _ => "<class \x27dict\x27>"

mutual

/-- CPython `repr` on the JSON-decodable fragment (strings are rendered
between single quotes; escape sequences inside strings are not modelled —
no claim exercises them). -/
def pyRepr : JVal → String
  | .null => "None"
  | .bool true => "True"
  | .bool false => "False"
  | .num n => toString n
  | .str s => "\x27" ++ s ++ "\x27"
  | .arr xs => "[" ++ String.intercalate ", " (pyReprList xs) ++ "]"
  | .obj fs => "\x7b" ++ String.intercalate ", " (pyReprFields fs) ++ "\x7d"

def pyReprList : List JVal → List String
  | [] => []
  | v :: vs => pyRepr v :: pyReprList vs

def pyReprFields : List (String × JVal) → List String
  | [] => []
  | (k, v) :: fs => ("\x27" ++ k ++ "\x27: " ++ pyRepr v) :: pyReprFields fs

end

/-- CPython `str` (as used by f-string interpolation) on the JSON-decodable
fragment: the identity on strings, `repr` otherwise. -/
def pyStr : JVal → String
  | .str s => s
  | v => pyRepr v

/-- The characters Python's `str.strip()` / `int(str)` treat as whitespace
(the ASCII ones; no claim involves non-ASCII whitespace). -/
def pyIsSpace (c : Char) : Bool :=
  c = ' ' || c = '\t' || c = '\n' || c = '\r' || c = '\x0b' || c = '\x0c'

/-- `not s.strip()` in Python: true iff every character of `s` is whitespace
(in particular true for the empty string). -/
def pyBlank (s : String) : Bool :=
  s.data.all pyIsSpace

/-- Digit-and-underscore body of a Python integer literal: nonempty, starts
and ends with a digit, only digits and underscores, no two consecutive
underscores. -/
def pyIntBodyValid (cs : List Char) : Bool :=
  (!cs.isEmpty)
    && cs.head?.all Char.isDigit
    && cs.getLast?.all Char.isDigit
    && cs.all (fun c => c.isDigit || c = '_')
    && (cs.zip cs.tail).all (fun p => !(p.1 = '_' && p.2 = '_'))

/-- Numeric value of a digit list (underscores already removed). -/
def digitsVal (cs : List Char) : Nat :=
  cs.foldl (fun a c => a * 10 + (c.toNat - 48)) 0

/-- Python `int(s)` on a string: strips surrounding whitespace, accepts an
optional sign and a digit body (with single underscores between digits);
`none` models `ValueError`.  (Non-ASCII digits are not modelled; no claim
involves them.) -/
def pyInt (s : String) : Option Int :=
  let t := ((s.data.dropWhile pyIsSpace).reverse.dropWhile pyIsSpace).reverse
  let signBody : Int × List Char :=
    match t with
    | '+' :: r => (1, r)
    | '-' :: r => (-1, r)
    | r => (1, r)
  if pyIntBodyValid signBody.2 then
    some (signBody.1 * (digitsVal (signBody.2.filter Char.isDigit) : Int))
  else
    none

/-- ASCII `str.lower()` on a character (the header names involved are
ASCII). -/
def lowerChar (c : Char) : Char :=
  if 'A' ≤ c ∧ c ≤ 'Z' then Char.ofNat (c.toNat + 32) else c

/-- ASCII `str.lower()`. -/
def lowerStr (s : String) : String := String.mk (s.data.map lowerChar)

/-- Python `s.startswith(p)`: prefix test on the characters. -/
def pyStartsWith (s p : String) : Bool := p.data.isPrefixOf s.data

/-- `response.headers.get(k)` on a `requests` `CaseInsensitiveDict`:
case-insensitive key lookup. -/
def headerGet (headers : List (String × String)) (k : String) : Option String :=
  (headers.find? (fun p => lowerStr p.1 = lowerStr k)).map Prod.snd

/-- `response.headers.get("x-amzn-requestid") or response.headers.get("cf-ray")`
from `BaseClient.request` (Python `or`: an empty string is falsy and falls
through to the second lookup). -/
def requestIdOf (headers : List (String × String)) : Option String :=
  match headerGet headers "x-amzn-requestid" with
  | some s => if s = "" then headerGet headers "cf-ray" else some s
  | none => headerGet headers "cf-ray"

/-- Value of the `retry_after` attribute of a `RateLimitError`: Python leaves
it as `None`, as the raw header string, or as a parsed integer. -/
inductive RAfter where
  | none : RAfter
  | str (s : String) : RAfter
  | int (n : Int) : RAfter

/-- The context every `PaystackError` carries (`message`, `status_code`,
`response or {}`, `request_id`).  `message` is a `JVal` because
`create_error_from_response` passes `data.get("message", ...)` — an arbitrary
decoded JSON value — directly as the message. -/
structure ErrInfo where
  message : JVal
  statusCode : Option Int
  response : JVal
  requestId : Option String

/-- The exception taxonomy of `paystack_client/exceptions.py`. -/
inductive PSError where
  | apiError (info : ErrInfo) : PSError
  | authenticationError (info : ErrInfo) : PSError
  | validationError (info : ErrInfo) (fieldErrors : JVal) : PSError
  | notFoundError (info : ErrInfo) : PSError
  | rateLimitError (info : ErrInfo) (retryAfter : RAfter) : PSError
  | serverError (info : ErrInfo) : PSError
  | networkError (info : ErrInfo) : PSError
  | invalidResponseError (info : ErrInfo) : PSError
  | transactionFailureError (info : ErrInfo) (gatewayResponse : JVal) : PSError

def PSError.isValidationError : PSError → Bool
  | .validationError _ _ => true
  | _ => false

def PSError.isApiError : PSError → Bool
  | .apiError _ => true
  | _ => false

/-- The `retry_after` extraction in the `status_code == 429` branch of
`create_error_from_response`: present `headers` model a `response` object
(which `hasattr(response, "headers")`); a dict argument has no headers.
An empty header value is falsy, so `int()` is never attempted on it and
the attribute keeps the empty string. -/
def retryAfterOf (headers : Option (List (String × String))) : RAfter :=
  match headers with
  | Option.none => RAfter.none
  | some hs =>
    match headerGet hs "Retry-After" with
    | Option.none => RAfter.none
    | some s =>
      if s = "" then RAfter.str s
      else
        match pyInt s with
        | some n => RAfter.int n
        | Option.none => RAfter.none

/-- `create_error_from_response(response, status_code, request_id)` from
`paystack_client/exceptions.py`.  `headers = some hs` models being called
with the original `response` object (the HTTP 429 path in
`BaseClient.request`), whose `.json()` is `respJson` and whose `.headers`
are `hs`; `headers = none` models being called with the parsed dict.
A non-dict: in the object path `data.get` raises `AttributeError`, caught
to give the generic message and empty data; in the dict path the
`isinstance` check fails and `data = {}`. -/
def createErrorFromResponse (respJson : JVal) (headers : Option (List (String × String)))
    (statusCode : Int) (requestId : Option String) : PSError :=
  let d : JVal :=
    match headers with
    | some _ => respJson
    | Option.none => if respJson.isDict then respJson else .obj []
  let extracted : JVal × JVal × Option (List (String × JVal)) :=
    match d with
    | .obj fs =>
      (.obj fs,
       (fs.lookup "message").getD (.str ("HTTP " ++ toString statusCode ++ " error")),
       match fs.lookup "errors" with
       | some (.obj efs) => some efs
       | _ => Option.none)
    | _ => (.obj [], .str ("HTTP " ++ toString statusCode ++ " error"), Option.none)
  let info : ErrInfo := ⟨extracted.2.1, some statusCode, extracted.1, requestId⟩
  if statusCode = 400 then .validationError info (.obj (extracted.2.2.getD []))
  else if statusCode = 401 then .authenticationError info
  else if statusCode = 404 then .notFoundError info
  else if statusCode = 429 then .rateLimitError info (retryAfterOf headers)
  else if 500 ≤ statusCode ∧ statusCode ≤ 599 then .serverError info
  else .apiError info

/-- The terminal-marker test of `_handle_success_response`:
`isinstance(data, dict)` and `data.get("status") in ["failed", "abandoned",
"cancelled"]` (Python `in` compares with `==`, which is false between a
non-string and a string).  Returns the marker when the test fires. -/
def dataTerminalStatus (data : JVal) : Option String :=
  match data with
  | .obj dfs =>
    match dfs.lookup "status" with
    | some (.str s) =>
      if s = "failed" ∨ s = "abandoned" ∨ s = "cancelled" then some s else Option.none
    | _ => Option.none
  | _ => Option.none

/-- `data.get("gateway_response", "Transaction failed")`. -/
def gatewayOf (data : JVal) : JVal :=
  match data with
  | .obj dfs => (dfs.lookup "gateway_response").getD (.str "Transaction failed")
  | _ => .str "Transaction failed"

/-- `BaseClient._handle_success_response(resp_json, status_code, request_id)`
from `paystack/core.py`, in source order: the `isinstance(resp_json, dict)`
check, the missing-`status`/`message` check, the `paystack_status is False`
business-failure branch (validation error when a dict-typed `errors` field
is present, generic API error otherwise), the terminal-marker check on
`data`, and finally `(data, resp_json.get("meta", {}))`. -/
def handleSuccessResponse (respJson : JVal) (statusCode : Int)
    (requestId : Option String) : Except PSError (JVal × JVal) :=
  match respJson with
  | .obj fields =>
    match fields.lookup "status", fields.lookup "message" with
    | some st, some msg =>
      match st with
      | .bool false =>
        match fields.lookup "errors" with
        | some (.obj efs) =>
          .error (.validationError ⟨msg, some statusCode, .obj fields, requestId⟩ (.obj efs))
        | _ =>
          .error (.apiError ⟨.str ("API request failed: " ++ pyStr msg),
            some statusCode, .obj fields, requestId⟩)
      | _ =>
        let data := (fields.lookup "data").getD .null
        match dataTerminalStatus data with
        | some ts =>
          .error (.transactionFailureError ⟨.str ("Transaction failed: " ++ ts),
            some statusCode, .obj fields, requestId⟩ (gatewayOf data))
        | Option.none => .ok (data, (fields.lookup "meta").getD (.obj []))
    | _, _ =>
      .error (.invalidResponseError
        ⟨.str "Invalid Paystack response structure: missing \x27status\x27 or \x27message\x27",
         some statusCode, .obj fields, requestId⟩)
  | other =>
    .error (.invalidResponseError
      ⟨.str ("Expected JSON object, got " ++ pyTypeName other),
       some statusCode, .obj [], requestId⟩)

/-- What the single `self.session.request(...)` round trip in
`BaseClient.request` produced: a wire-level response (status code, headers,
and the result of `response.json()`, whose `error` case carries the JSON
parse-error text), or one of the `requests` exceptions the method catches. -/
inductive TransportResult where
  | response (statusCode : Int) (headers : List (String × String))
      (body : Except String JVal) : TransportResult
  | connectTimeout : TransportResult
  | readTimeout : TransportResult
  | connectionError (e : String) : TransportResult
  | requestException (e : String) : TransportResult

/-- The response-handling part of `BaseClient.request` from
`paystack/core.py`: extract the correlation id, raise on JSON parse failure,
send status 200/201 to `_handle_success_response`, send 429 to
`create_error_from_response` with the original response object (for its
headers), send every other status to `create_error_from_response` with the
parsed dict, and map the `requests` exceptions to `NetworkError`s. -/
def requestOutcome (timeout : Int) (tr : TransportResult) : Except PSError (JVal × JVal) :=
  match tr with
  | .response sc hdrs body =>
    let requestId := requestIdOf hdrs
    match body with
    | .error e =>
      .error (.invalidResponseError
        ⟨.str ("Invalid JSON response: " ++ e), some sc, .obj [], requestId⟩)
    | .ok respJson =>
      if sc = 200 ∨ sc = 201 then
        handleSuccessResponse respJson sc requestId
      else if sc = 429 then
        .error (createErrorFromResponse respJson (some hdrs) sc requestId)
      else
        .error (createErrorFromResponse respJson Option.none sc requestId)
  | .connectTimeout =>
    .error (.networkError
      ⟨.str "Connection timed out - check your internet connection",
       Option.none, .obj [], Option.none⟩)
  | .readTimeout =>
    .error (.networkError
      ⟨.str ("Request timed out after " ++ toString timeout ++ " seconds"),
       Option.none, .obj [], Option.none⟩)
  | .connectionError e =>
    .error (.networkError ⟨.str ("Connection error: " ++ e), Option.none, .obj [], Option.none⟩)
  | .requestException e =>
    .error (.networkError ⟨.str ("Request failed: " ++ e), Option.none, .obj [], Option.none⟩)

/-- The configuration a constructed `BaseClient` holds. -/
structure BaseClient where
  secretKey : String
  baseUrl : String
  timeout : Int
deriving DecidableEq, Repr

/-- `BaseClient.__init__` from `paystack/core.py`: the secret key must
`startswith(("sk_test", "sk_live"))`, otherwise an `AuthenticationError` is
raised; no transport is involved (the constructor only stores configuration
and headers). -/
def BaseClient.init (secretKey : String) (baseUrl : String) (timeout : Int) :
    Except PSError BaseClient :=
  if pyStartsWith secretKey "sk_test" || pyStartsWith secretKey "sk_live" then
    .ok ⟨secretKey, baseUrl, timeout⟩
  else
    .error (.authenticationError
      ⟨.str "Invalid Paystack secret key format. Key should start with \x27sk_test_\x27 or \x27sk_live_\x27",
       Option.none, .obj [], Option.none⟩)

/-- `BaseClient._build_url`: `endpoint.lstrip("/")` then
`f"{self.base_url}/{endpoint}"`. -/
def buildUrl (baseUrl : String) (endpoint : String) : String :=
  baseUrl ++ "/" ++ String.mk (endpoint.data.dropWhile (· = '/'))

/-- `BaseClient.request(method, endpoint, ...)`: build the URL, perform the
round trip (modelled by the `transport` function from upper-cased method and
URL to what the wire produced), and classify the result.  The endpoint takes
no part in classification. -/
def BaseClient.request (c : BaseClient) (method : String) (endpoint : String)
    (transport : String → String → TransportResult) : Except PSError (JVal × JVal) :=
  requestOutcome c.timeout (transport method.toUpper (buildUrl c.baseUrl endpoint))

/-- A Python value passed as a keyword argument to
`_validate_required_params`: `None`, a string, or any other object. -/
inductive PyParam where
  | none : PyParam
  | str (s : String) : PyParam
  | other : PyParam

/-- The per-parameter test of `_validate_required_params`:
`param_value is None or (isinstance(param_value, str) and not param_value.strip())`. -/
def paramMissing : PyParam → Bool
  | .none => true
  | .str s => pyBlank s
  | .other => false

/-- The names collected into `missing_params`, in keyword order. -/
def missingOf (kwargs : List (String × PyParam)) : List String :=
  (kwargs.filter (fun p => paramMissing p.2)).map Prod.fst

/-- `BaseClient._validate_required_params(**kwargs)` from `paystack/core.py`:
collect every missing parameter name, then raise a single `ValidationError`
whose message joins all of them and whose `field_errors` maps each one to
"This field is required". -/
def validateRequiredParams (kwargs : List (String × PyParam)) : Except PSError Unit :=
  let missing := missingOf kwargs
  if missing = [] then .ok ()
  else
    .error (.validationError
      ⟨.str ("Missing required parameters: " ++ String.intercalate ", " missing),
       Option.none, .obj [], Option.none⟩
      (.obj (missing.map (fun n => (n, .str "This field is required")))))

/-- Does the envelope carry a dict-typed `errors` field
(`"errors" in resp_json and isinstance(resp_json["errors"], dict)`)? -/
def errorsIsDict (fields : List (String × JVal)) : Bool :=
  match fields.lookup "errors" with
  | some (.obj _) => true
  | _ => false

/-- The shape-failure condition of `_handle_success_response`: the parsed
body is not a dict, or the `status` or `message` key is absent. -/
def shapeInvalid : JVal → Bool
  | .obj fields => (fields.lookup "status").isNone || (fields.lookup "message").isNone
  | _ => true

theorem requestOutcome_ok_dispatch (tmo : Int) (hdrs : List (String × String))
    (sc : Int) (v : JVal) (h : sc = 200 ∨ sc = 201) :
    requestOutcome tmo (.response sc hdrs (.ok v)) =
      handleSuccessResponse v sc (requestIdOf hdrs) := by
  rcases h with h | h <;> subst h <;> simp [requestOutcome]

theorem requestOutcome_err_dispatch (tmo : Int) (hdrs : List (String × String))
    (sc : Int) (v : JVal) (h200 : sc ≠ 200) (h201 : sc ≠ 201) :
    requestOutcome tmo (.response sc hdrs (.ok v)) =
      .error (createErrorFromResponse v
        (if sc = 429 then some hdrs else Option.none) sc (requestIdOf hdrs)) := by
  simp only [requestOutcome]
  rw [if_neg (by simp [h200, h201])]
  split <;> rfl

theorem handleSuccess_business_validation (fields : List (String × JVal))
    (sc : Int) (rid : Option String) (m : JVal) (efs : List (String × JVal))
    (hs : fields.lookup "status" = some (.bool false))
    (hm : fields.lookup "message" = some m)
    (he : fields.lookup "errors" = some (.obj efs)) :
    handleSuccessResponse (.obj fields) sc rid =
      .error (.validationError ⟨m, some sc, .obj fields, rid⟩ (.obj efs)) := by
  simp only [handleSuccessResponse, hs, hm, he]

theorem handleSuccess_business_api (fields : List (String × JVal))
    (sc : Int) (rid : Option String) (m : JVal)
    (hs : fields.lookup "status" = some (.bool false))
    (hm : fields.lookup "message" = some m)
    (hne : errorsIsDict fields = false) :
    handleSuccessResponse (.obj fields) sc rid =
      .error (.apiError ⟨.str ("API request failed: " ++ pyStr m),
        some sc, .obj fields, rid⟩) := by
  simp only [handleSuccessResponse, hs, hm]
  rcases he : fields.lookup "errors" with _ | ev
  · rfl
  · cases ev <;> first
      | rfl
      | (exfalso; simp [errorsIsDict, he] at hne)

theorem handleSuccess_nonfalse (fields : List (String × JVal))
    (sc : Int) (rid : Option String) (st m : JVal)
    (hs : fields.lookup "status" = some st)
    (hst : st ≠ .bool false)
    (hm : fields.lookup "message" = some m) :
    handleSuccessResponse (.obj fields) sc rid =
      (match dataTerminalStatus ((fields.lookup "data").getD .null) with
       | some ts =>
         .error (.transactionFailureError ⟨.str ("Transaction failed: " ++ ts),
           some sc, .obj fields, rid⟩ (gatewayOf ((fields.lookup "data").getD .null)))
       | Option.none =>
         .ok ((fields.lookup "data").getD .null, (fields.lookup "meta").getD (.obj []))) := by
  rcases st with _ | b | n | s | xs | fs
  case bool =>
    cases b with
    | false => exact absurd rfl hst
    | true => simp only [handleSuccessResponse, hs, hm]
  all_goals simp only [handleSuccessResponse, hs, hm]

theorem handleSuccess_shape (v : JVal) (sc : Int) (rid : Option String)
    (hbad : shapeInvalid v = true) :
    ∃ i, handleSuccessResponse v sc rid = .error (.invalidResponseError i) ∧
      i.statusCode = some sc := by
  cases v with
  | obj fields =>
    rcases hs : fields.lookup "status" with _ | sv
    · rcases hm : fields.lookup "message" with _ | mv <;>
        exact ⟨⟨.str "Invalid Paystack response structure: missing \x27status\x27 or \x27message\x27",
          some sc, .obj fields, rid⟩, by simp only [handleSuccessResponse, hs, hm], rfl⟩
    · rcases hm : fields.lookup "message" with _ | mv
      · exact ⟨⟨.str "Invalid Paystack response structure: missing \x27status\x27 or \x27message\x27",
          some sc, .obj fields, rid⟩, by simp only [handleSuccessResponse, hs, hm], rfl⟩
      · exfalso
        simp [shapeInvalid, hs, hm] at hbad
  | null => exact ⟨_, rfl, rfl⟩
  | bool b => exact ⟨_, rfl, rfl⟩
  | num n => exact ⟨_, rfl, rfl⟩
  | str s => exact ⟨_, rfl, rfl⟩
  | arr xs => exact ⟨_, rfl, rfl⟩

/-- Claim C1: for every response with HTTP status 200 whose parsed body is a
well-formed envelope with `status` equal to `false`, the request operation
raises an error — a validation error when a dict-typed `errors` field is
present, otherwise a generic API error — and never returns a success
outcome. -/
theorem claim_C1_status_false_never_success
    (tmo : Int) (hdrs : List (String × String)) (fields : List (String × JVal)) (m : JVal)
    (hs : fields.lookup "status" = some (.bool false))
    (hm : fields.lookup "message" = some m) :
    (∀ r, requestOutcome tmo (.response 200 hdrs (.ok (.obj fields))) ≠ .ok r) ∧
    (∀ efs, fields.lookup "errors" = some (.obj efs) →
      requestOutcome tmo (.response 200 hdrs (.ok (.obj fields))) =
        .error (.validationError ⟨m, some 200, .obj fields, requestIdOf hdrs⟩ (.obj efs))) ∧
    (errorsIsDict fields = false →
      requestOutcome tmo (.response 200 hdrs (.ok (.obj fields))) =
        .error (.apiError ⟨.str ("API request failed: " ++ pyStr m),
          some 200, .obj fields, requestIdOf hdrs⟩)) := by
  have h0 := requestOutcome_ok_dispatch tmo hdrs 200 (.obj fields) (Or.inl rfl)
  refine ⟨?_, ?_, ?_⟩
  · intro r hr
    rw [h0] at hr
    rcases he : fields.lookup "errors" with _ | ev
    · rw [handleSuccess_business_api fields 200 _ m hs hm (by simp [errorsIsDict, he])] at hr
      exact Except.noConfusion hr
    · cases ev <;>
        first
          | (rw [handleSuccess_business_validation fields 200 _ m _ hs hm he] at hr
             exact Except.noConfusion hr)
          | (rw [handleSuccess_business_api fields 200 _ m hs hm
               (by simp [errorsIsDict, he])] at hr
             exact Except.noConfusion hr)
  · intro efs he
    rw [h0]
    exact handleSuccess_business_validation fields 200 _ m efs hs hm he
  · intro hne
    rw [h0]
    exact handleSuccess_business_api fields 200 _ m hs hm hne

/-- Witness for C1: the two concrete envelopes
`{status: false, message: "Validation failed", errors: {email: ...}}` and
`{status: false, message: "API error"}` at HTTP 200 produce a validation
error and a generic API error respectively. -/
theorem claim_C1_witness :
    requestOutcome 10 (.response 200 []
      (.ok (.obj [("status", .bool false), ("message", .str "Validation failed"),
        ("errors", .obj [("email", .str "Invalid email address")])]))) =
      .error (.validationError ⟨.str "Validation failed", some 200,
        .obj [("status", .bool false), ("message", .str "Validation failed"),
          ("errors", .obj [("email", .str "Invalid email address")])], Option.none⟩
        (.obj [("email", .str "Invalid email address")])) ∧
    requestOutcome 10 (.response 200 []
      (.ok (.obj [("status", .bool false), ("message", .str "API error")]))) =
      .error (.apiError ⟨.str "API request failed: API error", some 200,
        .obj [("status", .bool false), ("message", .str "API error")], Option.none⟩) :=
  ⟨(claim_C1_status_false_never_success 10 []
      [("status", .bool false), ("message", .str "Validation failed"),
       ("errors", .obj [("email", .str "Invalid email address")])]
      (.str "Validation failed") rfl rfl).2.1
      [("email", .str "Invalid email address")] rfl,
   (claim_C1_status_false_never_success 10 []
      [("status", .bool false), ("message", .str "API error")]
      (.str "API error") rfl rfl).2.2 rfl⟩

/-- Counterexample to C2 as stated: HTTP 202 is in the 2xx range and the body
`{status: true, message: "ok", data: {}}` is a success envelope with no
terminal sub-status, yet the code raises a generic API error (only the exact
statuses 200 and 201 reach the success handler; everything else, 2xx or not,
is dispatched to the status-code-to-error mapping). -/
theorem claim_C2_counterexample :
    requestOutcome 10 (.response 202 []
      (.ok (.obj [("status", .bool true), ("message", .str "ok"), ("data", .obj [])]))) =
      .error (.apiError ⟨.str "ok", some 202,
        .obj [("status", .bool true), ("message", .str "ok"), ("data", .obj [])],
        Option.none⟩) := rfl

/-- Claim C2 (amended): responses with HTTP status exactly 200 or 201 whose
well-formed body has `status = true` and no terminal negative sub-status
classify as success with the extracted `(data, meta)`; every status other
than 200 and 201 — including other 2xx codes — is dispatched to the
status-code-to-error mapping `create_error_from_response`. -/
theorem claim_C2_amended_dispatch :
    (∀ (tmo : Int) (hdrs : List (String × String)) (sc : Int)
       (fields : List (String × JVal)) (m : JVal),
      (sc = 200 ∨ sc = 201) →
      fields.lookup "status" = some (.bool true) →
      fields.lookup "message" = some m →
      dataTerminalStatus ((fields.lookup "data").getD .null) = Option.none →
      requestOutcome tmo (.response sc hdrs (.ok (.obj fields))) =
        .ok ((fields.lookup "data").getD .null, (fields.lookup "meta").getD (.obj []))) ∧
    (∀ (tmo : Int) (hdrs : List (String × String)) (sc : Int) (v : JVal),
      sc ≠ 200 → sc ≠ 201 →
      requestOutcome tmo (.response sc hdrs (.ok v)) =
        .error (createErrorFromResponse v
          (if sc = 429 then some hdrs else Option.none) sc (requestIdOf hdrs))) := by
  constructor
  · intro tmo hdrs sc fields m hsc hs hm hterm
    rw [requestOutcome_ok_dispatch tmo hdrs sc _ hsc,
      handleSuccess_nonfalse fields sc _ (.bool true) m hs (by nofun) hm, hterm]
  · intro tmo hdrs sc v h200 h201
    exact requestOutcome_err_dispatch tmo hdrs sc v h200 h201

/-- Witness for C2 (amended): a concrete 200 success, and a concrete 404
dispatched to the error factory. -/
theorem claim_C2_witness :
    requestOutcome 10 (.response 200 []
      (.ok (.obj [("status", .bool true), ("message", .str "ok"),
        ("data", .obj [("x", .num 1)])]))) =
      .ok (.obj [("x", .num 1)], .obj []) ∧
    requestOutcome 10 (.response 404 []
      (.ok (.obj [("status", .bool false), ("message", .str "Not found")]))) =
      .error (createErrorFromResponse
        (.obj [("status", .bool false), ("message", .str "Not found")])
        Option.none 404 Option.none) :=
  ⟨claim_C2_amended_dispatch.1 10 [] 200 _ _ (Or.inl rfl) rfl rfl rfl,
   claim_C2_amended_dispatch.2 10 [] 404 _ (by decide) (by decide)⟩

/-- Counterexample to the scoping part of C3: the terminal-marker check is
not scoped to payment-confirmation endpoints — a request to the `customer`
endpoint whose 200 envelope happens to carry `data.status = "failed"` also
raises the transaction-failure error. -/
theorem claim_C3_counterexample :
    BaseClient.request ⟨"sk_test_key", "https://api.paystack.co/", 10⟩ "GET" "customer"
      (fun _ _ => .response 200 [] (.ok (.obj
        [("status", .bool true), ("message", .str "ok"),
         ("data", .obj [("status", .str "failed"),
           ("gateway_response", .str "Insufficient funds")])]))) =
      .error (.transactionFailureError ⟨.str "Transaction failed: failed", some 200,
        .obj [("status", .bool true), ("message", .str "ok"),
          ("data", .obj [("status", .str "failed"),
            ("gateway_response", .str "Insufficient funds")])], Option.none⟩
        (.str "Insufficient funds")) := rfl

/-- Claim C3 (amended): for every endpoint and every 200 envelope with
`status = true` whose `data` dict carries a payment status in the closed set
failed/abandoned/cancelled, a transaction-failure error is raised carrying
the gateway-supplied explanation (`data.get("gateway_response", "Transaction
failed")`); the check is applied globally by the shared response handler,
not scoped to payment-confirmation endpoints. -/
theorem claim_C3_amended_global_check (c : BaseClient) (method endpoint : String)
    (hdrs : List (String × String)) (fields dfs : List (String × JVal)) (m : JVal) (s : String)
    (hs : fields.lookup "status" = some (.bool true))
    (hm : fields.lookup "message" = some m)
    (hd : fields.lookup "data" = some (.obj dfs))
    (hds : dfs.lookup "status" = some (.str s))
    (hterm : s = "failed" ∨ s = "abandoned" ∨ s = "cancelled") :
    BaseClient.request c method endpoint
      (fun _ _ => .response 200 hdrs (.ok (.obj fields))) =
      .error (.transactionFailureError
        ⟨.str ("Transaction failed: " ++ s), some 200, .obj fields, requestIdOf hdrs⟩
        ((dfs.lookup "gateway_response").getD (.str "Transaction failed"))) := by
  show requestOutcome c.timeout (.response 200 hdrs (.ok (.obj fields))) = _
  rw [requestOutcome_ok_dispatch c.timeout hdrs 200 _ (Or.inl rfl),
    handleSuccess_nonfalse fields 200 _ (.bool true) m hs (by nofun) hm, hd]
  rcases hterm with h | h | h <;> subst h <;>
    simp [dataTerminalStatus, hds, gatewayOf]

/-- Witness for C3 (amended): the spec example — verifying a transaction
whose data is `{status: "failed", gateway_response: "Insufficient funds"}`
raises a transaction-failure error whose explanation text equals
"Insufficient funds". -/
theorem claim_C3_witness :
    BaseClient.request ⟨"sk_test_key", "https://api.paystack.co/", 10⟩ "GET"
      "transaction/verify/ref123"
      (fun _ _ => .response 200 [] (.ok (.obj
        [("status", .bool true), ("message", .str "Verification successful"),
         ("data", .obj [("status", .str "failed"),
           ("gateway_response", .str "Insufficient funds")])]))) =
      .error (.transactionFailureError ⟨.str "Transaction failed: failed", some 200,
        .obj [("status", .bool true), ("message", .str "Verification successful"),
          ("data", .obj [("status", .str "failed"),
            ("gateway_response", .str "Insufficient funds")])], Option.none⟩
        (.str "Insufficient funds")) :=
  claim_C3_amended_global_check ⟨"sk_test_key", "https://api.paystack.co/", 10⟩
    "GET" "transaction/verify/ref123" []
    [("status", .bool true), ("message", .str "Verification successful"),
     ("data", .obj [("status", .str "failed"),
       ("gateway_response", .str "Insufficient funds")])]
    [("status", .str "failed"), ("gateway_response", .str "Insufficient funds")]
    (.str "Verification successful") "failed"
    rfl rfl rfl rfl (Or.inl rfl)

/-- Counterexample to C4 as stated: a 400 response whose parsed body is not a
mapping (a JSON list) does not produce an invalid-response error — the
status-code dispatch happens first and yields a `ValidationError` built by
the factory (message "HTTP 400 error", empty field errors). -/
theorem claim_C4_counterexample :
    requestOutcome 10 (.response 400 [] (.ok (.arr []))) =
      .error (.validationError ⟨.str "HTTP 400 error", some 400, .obj [], Option.none⟩
        (.obj [])) := rfl

/-- Claim C4 (amended): for responses with HTTP status 200 or 201, a parsed
body that is not a mapping, or a mapping missing the `status` or the
`message` field, produces an invalid-response error (carrying the HTTP
status); for any other status code the status-code dispatch runs first, so
the shape rule does not apply there. -/
theorem claim_C4_amended_shape_check :
    ∀ (tmo : Int) (hdrs : List (String × String)) (sc : Int) (v : JVal),
      (sc = 200 ∨ sc = 201) →
      shapeInvalid v = true →
      ∃ i, requestOutcome tmo (.response sc hdrs (.ok v)) =
        .error (.invalidResponseError i) ∧ i.statusCode = some sc := by
  intro tmo hdrs sc v hsc hbad
  rw [requestOutcome_ok_dispatch tmo hdrs sc v hsc]
  exact handleSuccess_shape v sc _ hbad

/-- Witness for C4 (amended): a 200 body missing both `status` and `message`
yields an invalid-response error. -/
theorem claim_C4_witness :
    ∃ i, requestOutcome 10 (.response 200 []
      (.ok (.obj [("detail", .str "Invalid JSON response")]))) =
        .error (.invalidResponseError i) ∧ i.statusCode = some 200 :=
  claim_C4_amended_shape_check 10 [] 200
    (.obj [("detail", .str "Invalid JSON response")]) (Or.inl rfl) rfl

/-- Counterexample to C5 as stated: a 429 response whose `Retry-After` header
is present but empty has a non-numeric header, yet the raised rate-limit
error's retry-after field is the empty string — the falsy header skips the
`int()` attempt and the attribute is never reset to `None`. -/
theorem claim_C5_counterexample :
    requestOutcome 10 (.response 429 [("Retry-After", "")]
      (.ok (.obj [("status", .bool false), ("message", .str "Too many requests")]))) =
      .error (.rateLimitError ⟨.str "Too many requests", some 429,
        .obj [("status", .bool false), ("message", .str "Too many requests")],
        Option.none⟩ (RAfter.str "")) := rfl

/-- Claim C5 (amended): every HTTP 429 response raises a rate-limit error
whose retry-after is `retryAfterOf` of the response headers: the parsed
integer when the header is present, non-empty and numeric (header "120"
yields 120); `None` when the header is absent, or present, non-empty and
non-numeric; and the empty string itself (not `None`) when the header is
present but empty. -/
theorem claim_C5_amended_retry_after :
    (∀ (tmo : Int) (hdrs : List (String × String)) (v : JVal),
      ∃ i, requestOutcome tmo (.response 429 hdrs (.ok v)) =
        .error (.rateLimitError i (retryAfterOf (some hdrs)))) ∧
    (∀ hs, headerGet hs "Retry-After" = Option.none →
      retryAfterOf (some hs) = RAfter.none) ∧
    (∀ hs s, headerGet hs "Retry-After" = some s → s ≠ "" → pyInt s = Option.none →
      retryAfterOf (some hs) = RAfter.none) ∧
    (∀ hs s n, headerGet hs "Retry-After" = some s → s ≠ "" → pyInt s = some n →
      retryAfterOf (some hs) = RAfter.int n) ∧
    (∀ hs s, headerGet hs "Retry-After" = some s → s = "" →
      retryAfterOf (some hs) = RAfter.str s) := by
  refine ⟨?_, ?_, ?_, ?_, ?_⟩
  · intro tmo hdrs v
    rw [requestOutcome_err_dispatch tmo hdrs 429 v (by decide) (by decide), if_pos rfl]
    cases v <;> exact ⟨_, rfl⟩
  · intro hs h
    simp [retryAfterOf, h]
  · intro hs s h hne hp
    simp [retryAfterOf, h, hne, hp]
  · intro hs s n h hne hp
    simp [retryAfterOf, h, hne, hp]
  · intro hs s h he
    subst he
    simp [retryAfterOf, h]

/-- Witness for C5 (amended): header "120" (in any case) gives 120, an absent
header gives `None`, a non-numeric header gives `None`, and a concrete 429
response carries exactly `retryAfterOf` of its headers. -/
theorem claim_C5_witness :
    retryAfterOf (some [("retry-after", "120")]) = RAfter.int 120 ∧
    retryAfterOf (some []) = RAfter.none ∧
    retryAfterOf (some [("Retry-After", "abc")]) = RAfter.none ∧
    (∃ i, requestOutcome 10 (.response 429 [("Retry-After", "120")]
      (.ok (.obj [("status", .bool false), ("message", .str "Too many requests")]))) =
        .error (.rateLimitError i (retryAfterOf (some [("Retry-After", "120")])))) :=
  ⟨claim_C5_amended_retry_after.2.2.2.1 [("retry-after", "120")] "120" 120
     rfl (by decide) rfl,
   claim_C5_amended_retry_after.2.1 [] rfl,
   claim_C5_amended_retry_after.2.2.1 [("Retry-After", "abc")] "abc" rfl (by decide) rfl,
   claim_C5_amended_retry_after.1 10 [("Retry-After", "120")]
     (.obj [("status", .bool false), ("message", .str "Too many requests")])⟩

/-- Claim C6: constructing a client with a credential that starts with
neither of the two recognized prefixes ("sk_test", "sk_live") always fails
with an authentication error; construction is pure configuration and no
transport is involved, so no network request can have been attempted. -/
theorem claim_C6_credential_gate :
    ∀ (k b : String) (t : Int),
      pyStartsWith k "sk_test" = false →
      pyStartsWith k "sk_live" = false →
      BaseClient.init k b t =
        .error (.authenticationError
          ⟨.str "Invalid Paystack secret key format. Key should start with \x27sk_test_\x27 or \x27sk_live_\x27",
           Option.none, .obj [], Option.none⟩) := by
  intro k b t h1 h2
  simp [BaseClient.init, h1, h2]

/-- Witness for C6: the credential "invalid_key" is rejected at
construction. -/
theorem claim_C6_witness :
    BaseClient.init "invalid_key" "https://api.paystack.co/" 10 =
      .error (.authenticationError
        ⟨.str "Invalid Paystack secret key format. Key should start with \x27sk_test_\x27 or \x27sk_live_\x27",
         Option.none, .obj [], Option.none⟩) :=
  claim_C6_credential_gate "invalid_key" "https://api.paystack.co/" 10
    (by decide) (by decide)

/-- Counterexample to C7 as stated: the connect-timeout message is the fixed
string "Connection timed out - check your internet connection" — it is
independent of the configured timeout (identical for timeouts 10 and 999)
and so cannot state the configured duration. -/
theorem claim_C7_counterexample :
    requestOutcome 10 TransportResult.connectTimeout =
        requestOutcome 999 TransportResult.connectTimeout ∧
    requestOutcome 10 TransportResult.connectTimeout =
      .error (.networkError
        ⟨.str "Connection timed out - check your internet connection",
         Option.none, .obj [], Option.none⟩) :=
  ⟨rfl, rfl⟩

/-- Claim C7 (amended): both timeout kinds raise a network error; the
read-timeout message states the configured duration ("Request timed out
after N seconds") while the connect-timeout message names the timeout type
but not the duration. -/
theorem claim_C7_amended_timeout_messages (tmo : Int) :
    requestOutcome tmo TransportResult.readTimeout =
      .error (.networkError
        ⟨.str ("Request timed out after " ++ toString tmo ++ " seconds"),
         Option.none, .obj [], Option.none⟩) ∧
    requestOutcome tmo TransportResult.connectTimeout =
      .error (.networkError
        ⟨.str "Connection timed out - check your internet connection",
         Option.none, .obj [], Option.none⟩) :=
  ⟨rfl, rfl⟩

/-- Claim C8: the required-field check passes exactly when no keyword value
is missing; otherwise it raises a single validation error whose message and
field-error dict name every missing field; `None`, the empty string and
whitespace-only strings are rejected identically, and any string with a
non-whitespace character is accepted. -/
theorem claim_C8_required_params (kwargs : List (String × PyParam)) :
    (validateRequiredParams kwargs = .ok () ↔
      ∀ p ∈ kwargs, paramMissing p.2 = false) ∧
    ((∃ p ∈ kwargs, paramMissing p.2 = true) →
      validateRequiredParams kwargs =
        .error (.validationError
          ⟨.str ("Missing required parameters: " ++
            String.intercalate ", " (missingOf kwargs)),
           Option.none, .obj [], Option.none⟩
          (.obj ((missingOf kwargs).map
            (fun n => (n, .str "This field is required")))))) ∧
    (paramMissing PyParam.none = true) ∧
    (∀ s, pyBlank s = true → paramMissing (.str s) = paramMissing PyParam.none) ∧
    (∀ s, pyBlank s = false → paramMissing (.str s) = false) := by
  have key : missingOf kwargs = [] ↔ ∀ p ∈ kwargs, paramMissing p.2 = false := by
    simp only [missingOf, List.map_eq_nil_iff, List.filter_eq_nil_iff]
    constructor
    · intro h p hp
      exact Bool.not_eq_true _ ▸ (by simpa using h p hp)
    · intro h p hp
      simp [h p hp]
  refine ⟨?_, ?_, rfl, ?_, ?_⟩
  · constructor
    · intro h
      by_cases hM : missingOf kwargs = []
      · exact key.mp hM
      · simp only [validateRequiredParams, if_neg hM] at h
        exact Except.noConfusion h
    · intro h
      simp only [validateRequiredParams]
      rw [if_pos (key.mpr h)]
  · intro hex
    have hne : ¬ missingOf kwargs = [] := by
      intro h0
      obtain ⟨p, hp, hmiss⟩ := hex
      rw [key.mp h0 p hp] at hmiss
      exact Bool.noConfusion hmiss
    simp only [validateRequiredParams]
    rw [if_neg hne]
  · intro s h
    simp [paramMissing, h]
  · intro s h
    simp [paramMissing, h]

/-- Witness for C8: the test-suite example — an empty string, `None` and a
whitespace-only string are all reported, in one validation error naming all
three fields. -/
theorem claim_C8_witness :
    validateRequiredParams [("param1", PyParam.str ""), ("param2", PyParam.none),
      ("param3", PyParam.str "  ")] =
      .error (.validationError
        ⟨.str "Missing required parameters: param1, param2, param3",
         Option.none, .obj [], Option.none⟩
        (.obj [("param1", .str "This field is required"),
          ("param2", .str "This field is required"),
          ("param3", .str "This field is required")])) :=
  (claim_C8_required_params
    [("param1", PyParam.str ""), ("param2", PyParam.none),
     ("param3", PyParam.str "  ")]).2.1
    ⟨("param1", PyParam.str ""), List.mem_cons_self _ _, rfl⟩

/-- Claim C9: on a successful outcome, a missing `meta` field in the
envelope defaults to the empty mapping. -/
theorem claim_C9_meta_default (tmo : Int) (hdrs : List (String × String))
    (fields : List (String × JVal)) (m : JVal)
    (hs : fields.lookup "status" = some (.bool true))
    (hm : fields.lookup "message" = some m)
    (hmeta : fields.lookup "meta" = Option.none)
    (hterm : dataTerminalStatus ((fields.lookup "data").getD .null) = Option.none) :
    requestOutcome tmo (.response 200 hdrs (.ok (.obj fields))) =
      .ok ((fields.lookup "data").getD .null, .obj []) := by
  rw [requestOutcome_ok_dispatch tmo hdrs 200 _ (Or.inl rfl),
    handleSuccess_nonfalse fields 200 _ (.bool true) m hs (by nofun) hm, hterm, hmeta]
  rfl

/-- Witness for C9: the spec example `{status: true, message: "ok",
data: {x: 1}}` at HTTP 200 returns `data = {x: 1}` and `meta = {}`. -/
theorem claim_C9_witness :
    requestOutcome 10 (.response 200 [] (.ok (.obj [("status", .bool true),
      ("message", .str "ok"), ("data", .obj [("x", .num 1)])]))) =
      .ok (.obj [("x", .num 1)], .obj []) :=
  claim_C9_meta_default 10 [] [("status", .bool true), ("message", .str "ok"),
    ("data", .obj [("x", .num 1)])] (.str "ok") rfl rfl rfl rfl

/-- Claim C10 (implicit): the business-failure branch fires only on the
boolean `false` (the Python `is False` identity test); any envelope whose
`status` field holds any other value — including the falsy `0`, `""` and
`null` — is classified as a success, or as a transaction failure when the
data carries a terminal marker. -/
theorem claim_C10_strict_false_check (tmo : Int) (hdrs : List (String × String))
    (sc : Int) (fields : List (String × JVal)) (v m : JVal)
    (hsc : sc = 200 ∨ sc = 201)
    (hs : fields.lookup "status" = some v)
    (hv : v ≠ .bool false)
    (hm : fields.lookup "message" = some m) :
    (dataTerminalStatus ((fields.lookup "data").getD .null) = Option.none →
      requestOutcome tmo (.response sc hdrs (.ok (.obj fields))) =
        .ok ((fields.lookup "data").getD .null, (fields.lookup "meta").getD (.obj []))) ∧
    (∀ s, dataTerminalStatus ((fields.lookup "data").getD .null) = some s →
      requestOutcome tmo (.response sc hdrs (.ok (.obj fields))) =
        .error (.transactionFailureError
          ⟨.str ("Transaction failed: " ++ s), some sc, .obj fields, requestIdOf hdrs⟩
          (gatewayOf ((fields.lookup "data").getD .null)))) := by
  constructor
  · intro hterm
    rw [requestOutcome_ok_dispatch tmo hdrs sc _ hsc,
      handleSuccess_nonfalse fields sc _ v m hs hv hm, hterm]
  · intro s hterm
    rw [requestOutcome_ok_dispatch tmo hdrs sc _ hsc,
      handleSuccess_nonfalse fields sc _ v m hs hv hm, hterm]

/-- Witness for C10: an envelope whose `status` is the falsy number `0` is
classified as a success, not as a business failure. -/
theorem claim_C10_witness :
    requestOutcome 10 (.response 200 [] (.ok (.obj [("status", .num 0),
      ("message", .str "ok")]))) = .ok (.null, .obj []) :=
  (claim_C10_strict_false_check 10 [] 200
    [("status", .num 0), ("message", .str "ok")] (.num 0) (.str "ok")
    (Or.inl rfl) rfl (by nofun) rfl).1 rfl

end Paystack
